import Mathlib

/-
  Verification of the epoch-batched staking message server
  (x/staking/keeper/msg_server.go).

  The five handlers (CreateValidator, EditValidator, Delegate,
  BeginRedelegate, Undelegate) are embedded directly from the source.
  External collaborators that live outside the given source file
  (address text-encoding, the validator registry's storage format, the
  bank transfer, the epoch clock, and the epoch-application algorithms
  EpochBeginRedelegate/EpochUndelegate) are modelled from the spec's
  interface contracts; each such definition is marked in its doc
  comment.
-/

namespace Staking

abbrev ValAddr := String
abbrev AccAddr := String
abbrev ConsAddr := String
abbrev Denom := String

structure Coin where
  denom : Denom
  amount : Nat
  deriving DecidableEq

/-- Modelled from the spec: cryptographic key validation internals are out of
scope; a public key is its type tag plus an opaque identity from which the
consensus address is derived. -/
structure PubKey where
  keyType : String
  address : ConsAddr
  deriving DecidableEq

/-- Modelled from the spec: the derived consensus address of a public key
(`sdk.GetConsAddress`), out-of-scope crypto collapsed to a projection. -/
def GetConsAddress (pk : PubKey) : ConsAddr :=
  pk.address

structure Description where
  moniker : String
  identity : String
  website : String
  securityContact : String
  details : String
  deriving DecidableEq

structure CommissionRates where
  rate : Int
  maxRate : Int
  maxChangeRate : Int
  deriving DecidableEq

structure Commission where
  rate : Int
  maxRate : Int
  maxChangeRate : Int
  updateTime : Int
  deriving DecidableEq

structure Validator where
  operatorAddress : ValAddr
  consensusPubkey : PubKey
  description : Description
  commission : Commission
  minSelfDelegation : Nat
  deriving DecidableEq

inductive StakingError where
  | invalidValAddress
  | validatorOwnerExists
  | invalidType
  | validatorPubKeyExists
  | badDenom (got expected : Denom)
  | descriptionLength
  | pubKeyTypeNotSupported
  | invalidCommission
  | invalidAccAddress
  | insufficientFunds
  | simulationError (code : Nat)
  deriving DecidableEq

structure MsgCreateValidator where
  description : Description
  commission : CommissionRates
  minSelfDelegation : Nat
  delegatorAddress : String
  validatorAddress : String
  pubkey : Option PubKey
  value : Coin
  deriving DecidableEq

structure MsgEditValidator where
  description : Description
  validatorAddress : String
  commissionRate : Option Int
  minSelfDelegation : Option Nat
  deriving DecidableEq

structure MsgDelegate where
  delegatorAddress : String
  validatorAddress : String
  amount : Coin
  deriving DecidableEq

structure MsgBeginRedelegate where
  delegatorAddress : String
  validatorSrcAddress : String
  validatorDstAddress : String
  amount : Coin
  deriving DecidableEq

structure MsgUndelegate where
  delegatorAddress : String
  validatorAddress : String
  amount : Coin
  deriving DecidableEq

structure MsgCreateValidatorResponse where
  deriving DecidableEq

structure MsgEditValidatorResponse where
  deriving DecidableEq

structure MsgDelegateResponse where
  deriving DecidableEq

structure MsgBeginRedelegateResponse where
  completionTime : Int
  deriving DecidableEq

structure MsgUndelegateResponse where
  completionTime : Int
  deriving DecidableEq

/-- The closed tagged union of pending staking intents held by the epoch
action queue (`SaveEpochAction` stores the message itself). -/
inductive EpochAction where
  | createValidator (msg : MsgCreateValidator)
  | editValidator (msg : MsgEditValidator)
  | delegate (msg : MsgDelegate)
  | beginRedelegate (msg : MsgBeginRedelegate)
  | undelegate (msg : MsgUndelegate)
  deriving DecidableEq

structure EventAttribute where
  key : String
  value : String
  deriving DecidableEq

structure Event where
  eventType : String
  attributes : List EventAttribute
  deriving DecidableEq

instance {ε α : Type} [DecidableEq ε] [DecidableEq α] : DecidableEq (Except ε α) := fun a b =>
  match a, b with
  | Except.error e, Except.error f =>
      if h : e = f then Decidable.isTrue (congrArg Except.error h)
      else Decidable.isFalse (fun hc => h (Except.error.inj hc))
  | Except.error _, Except.ok _ => Decidable.isFalse (fun hc => Except.noConfusion hc)
  | Except.ok _, Except.error _ => Decidable.isFalse (fun hc => Except.noConfusion hc)
  | Except.ok x, Except.ok y =>
      if h : x = y then Decidable.isTrue (congrArg Except.ok h)
      else Decidable.isFalse (fun hc => h (Except.ok.inj hc))

/-- First-match association-list lookup (the storage layer's point reads). -/
def assocLookup {α β : Type} [DecidableEq α] (l : List (α × β)) (a : α) : Option β :=
  match l with
  | [] => none
  | (k, v) :: rest => if k = a then some v else assocLookup rest a

/-- The durable store visible to the handlers: the validator registry with
its two indices and power ranking, the creation-hook call log, the bank
balances and module escrow pool, the epoch action queue, and emitted
events. Modelled from the spec's external-interface contracts. -/
structure Store where
  validatorsByOp : List (ValAddr × Validator)
  validatorsByCons : List (ConsAddr × ValAddr)
  powerIndex : List ValAddr
  hookCalls : List ValAddr
  balances : List ((AccAddr × Denom) × Nat)
  poolBalances : List (Denom × Nat)
  queue : List (Int × EpochAction)
  events : List Event
  deriving DecidableEq

/-- The ledger context: current height/time, consensus parameters
(`none` models `cp == nil || cp.Validator == nil`, i.e. no key-type
restriction), and the store. -/
structure Ctx where
  blockHeight : Int
  blockTime : Int
  consensusPubKeyTypes : Option (List String)
  store : Store
  deriving DecidableEq

def Ctx.WithBlockHeight (ctx : Ctx) (h : Int) : Ctx :=
  { ctx with blockHeight := h }

def Ctx.WithBlockTime (ctx : Ctx) (t : Int) : Ctx :=
  { ctx with blockTime := t }

/-- `ctx.CacheContext()`: the projected (cached) context plus the commit
function. The projection starts as an exact copy of the canonical
context; committing the cached context would make it the new canonical
one. The handlers never invoke the commit function. -/
def CacheContext (ctx : Ctx) : Ctx × (Ctx → Ctx) :=
  (ctx, fun c => c)

/-- Modelled from the spec: the Keeper's out-of-scope collaborators — the
bonding-denomination parameter, the Epoch Clock (`GetEpochNumber`,
`GetNextEpochHeight`, `GetNextEpochTime`), and the epoch-application
algorithms `EpochBeginRedelegate`/`EpochUndelegate` (given a context and a
request they return a completion time, and possibly a mutated context, or
fail with a structured error). -/
structure Keeper where
  bondDenom : Denom
  epochNumber : Int
  nextEpochHeight : Int
  nextEpochTime : Int
  epochBeginRedelegate : Ctx → MsgBeginRedelegate → Except StakingError (Int × Ctx)
  epochUndelegate : Ctx → MsgUndelegate → Except StakingError (Int × Ctx)

def BondDenom (k : Keeper) : Denom := k.bondDenom

def GetEpochNumber (k : Keeper) : Int := k.epochNumber

def GetNextEpochHeight (k : Keeper) : Int := k.nextEpochHeight

def GetNextEpochTime (k : Keeper) : Int := k.nextEpochTime

/-- Modelled from the spec: `sdk.ValAddressFromBech32` — address
text-encoding is an out-of-scope external; modelled as rejecting exactly
the malformed (empty) operator address. -/
def ValAddressFromBech32 (s : String) : Except StakingError ValAddr :=
  if s = "" then Except.error StakingError.invalidValAddress else Except.ok s

/-- Modelled from the spec: `sdk.AccAddressFromBech32` — address
text-encoding is an out-of-scope external; modelled as rejecting exactly
the malformed (empty) delegator address. -/
def AccAddressFromBech32 (s : String) : Except StakingError AccAddr :=
  if s = "" then Except.error StakingError.invalidAccAddress else Except.ok s

/-- `k.GetValidator(ctx, addr)`: operator-address index lookup. -/
def GetValidator (ctx : Ctx) (addr : ValAddr) : Option Validator :=
  assocLookup ctx.store.validatorsByOp addr

/-- `k.GetValidatorByConsAddr(ctx, consAddr)`: the consensus-address index
stores the operator address, then the primary index is consulted. -/
def GetValidatorByConsAddr (ctx : Ctx) (consAddr : ConsAddr) : Option Validator :=
  match assocLookup ctx.store.validatorsByCons consAddr with
  | none => none
  | some opAddr => GetValidator ctx opAddr

/-- `k.SetValidator(ctx, validator)`: persist under the operator-address
index (overwriting semantics via first-match lookup). -/
def SetValidator (ctx : Ctx) (v : Validator) : Ctx :=
  { ctx with store :=
      { ctx.store with validatorsByOp := (v.operatorAddress, v) :: ctx.store.validatorsByOp } }

/-- `k.SetValidatorByConsAddr(ctx, validator)`: persist the operator
address under the derived consensus address. -/
def SetValidatorByConsAddr (ctx : Ctx) (v : Validator) : Ctx :=
  { ctx with store :=
      { ctx.store with validatorsByCons :=
          (GetConsAddress v.consensusPubkey, v.operatorAddress) :: ctx.store.validatorsByCons } }

/-- `k.SetNewValidatorByPowerIndex(ctx, validator)`: insert into the
power-ranking index. -/
def SetNewValidatorByPowerIndex (ctx : Ctx) (v : Validator) : Ctx :=
  { ctx with store :=
      { ctx.store with powerIndex := v.operatorAddress :: ctx.store.powerIndex } }

/-- `k.AfterValidatorCreated(ctx, opAddr)`: the extension hook, recorded
as a call-log entry (no return value is consumed). -/
def AfterValidatorCreated (ctx : Ctx) (opAddr : ValAddr) : Ctx :=
  { ctx with store := { ctx.store with hookCalls := opAddr :: ctx.store.hookCalls } }

def getBalance (st : Store) (a : AccAddr) (d : Denom) : Nat :=
  (assocLookup st.balances (a, d)).getD 0

def getPoolBalance (st : Store) (d : Denom) : Nat :=
  (assocLookup st.poolBalances d).getD 0

/-- Modelled from the spec: `bankKeeper.DelegateCoinsFromAccountToModule`
(`TransferToPool`) — atomic, all-or-nothing move of `amt` of denom `d`
from the delegator's account into the module escrow pool; fails closed
when the account balance is insufficient, leaving the context untouched. -/
def DelegateCoinsFromAccountToModule (ctx : Ctx) (a : AccAddr) (d : Denom) (amt : Nat) :
    Except StakingError Ctx :=
  if amt ≤ getBalance ctx.store a d then
    Except.ok { ctx with store :=
      { ctx.store with
          balances := ((a, d), getBalance ctx.store a d - amt) :: ctx.store.balances
          poolBalances := (d, getPoolBalance ctx.store d + amt) :: ctx.store.poolBalances } }
  else Except.error StakingError.insufficientFunds

/-- `k.SaveEpochAction(ctx, epochNumber, msg)`: the epoch action queue's
append — records the action under the given epoch number (or the
immediate-queue sentinel `0`), in insertion order. -/
def SaveEpochAction (ctx : Ctx) (epochNumber : Int) (a : EpochAction) : Ctx :=
  { ctx with store := { ctx.store with queue := ctx.store.queue ++ [(epochNumber, a)] } }

def EmitEvents (ctx : Ctx) (es : List Event) : Ctx :=
  { ctx with store := { ctx.store with events := ctx.store.events ++ es } }

/-- `tmstrings.StringInSlice`. -/
def StringInSlice (s : String) (l : List String) : Bool :=
  l.contains s

/-- The consensus-parameter key-type gate of CreateValidator:
`cp != nil && cp.Validator != nil && !StringInSlice(pk.Type(), cp.Validator.PubKeyTypes)`. -/
def pubKeyTypeForbidden (ctx : Ctx) (pk : PubKey) : Bool :=
  match ctx.consensusPubKeyTypes with
  | none => false
  | some keyTypes => ! StringInSlice pk.keyType keyTypes

/-- Modelled from the spec: `types.NewValidator` — constructs the
validator record with the given operator address, key and description;
commission and minimum self-delegation are filled in afterwards by the
handler. -/
def NewValidator (opAddr : ValAddr) (pk : PubKey) (d : Description) : Validator :=
  { operatorAddress := opAddr
    consensusPubkey := pk
    description := d
    commission := { rate := 0, maxRate := 0, maxChangeRate := 0, updateTime := 0 }
    minSelfDelegation := 1 }

/-- `types.NewCommissionWithTime`: the commission schedule with its
creation timestamp. -/
def NewCommissionWithTime (rate maxRate maxChangeRate time : Int) : Commission :=
  { rate := rate, maxRate := maxRate, maxChangeRate := maxChangeRate, updateTime := time }

/-- Modelled from the spec: `validator.SetInitialCommission` — the
commission-rate bound fixed at creation time is `rate ≤ maxRate`. -/
def SetInitialCommission (v : Validator) (c : Commission) : Except StakingError Validator :=
  if c.rate ≤ c.maxRate then Except.ok { v with commission := c }
  else Except.error StakingError.invalidCommission

/-- Modelled from the spec: `msg.Description.EnsureLength` — each
description field must satisfy its length limit. -/
def EnsureLength (d : Description) : Except StakingError Description :=
  if d.moniker.length ≤ 70 ∧ d.identity.length ≤ 3000 ∧ d.website.length ≤ 140
      ∧ d.securityContact.length ≤ 140 ∧ d.details.length ≤ 280 then
    Except.ok d
  else Except.error StakingError.descriptionLength

def EventTypeCreateValidator : String := "create_validator"
def AttributeKeyValidator : String := "validator"
def AttributeKeyAmount : String := "amount"
def EventTypeMessage : String := "message"
def AttributeKeyModule : String := "module"
def AttributeValueCategory : String := "staking"
def AttributeKeySender : String := "sender"

/-- The two events emitted by a successful CreateValidator. -/
def createValidatorEvents (msg : MsgCreateValidator) : List Event :=
  [ { eventType := EventTypeCreateValidator
      attributes :=
        [ { key := AttributeKeyValidator, value := msg.validatorAddress }
        , { key := AttributeKeyAmount, value := toString msg.value.amount } ] }
  , { eventType := EventTypeMessage
      attributes :=
        [ { key := AttributeKeyModule, value := AttributeValueCategory }
        , { key := AttributeKeySender, value := msg.delegatorAddress } ] } ]

/-- `msgServer.CreateValidator`, embedded line by line from the source.
Returns the (possibly mutated) canonical context and the response or
error. The validator record is written, the indices updated and the hook
invoked before the delegator address is decoded and the escrow transfer
attempted; an error from those later steps leaves the earlier writes in
place, exactly as in the source. -/
def CreateValidator (k : Keeper) (ctx : Ctx) (msg : MsgCreateValidator) :
    Ctx × Except StakingError MsgCreateValidatorResponse :=
  match ValAddressFromBech32 msg.validatorAddress with
  | Except.error e => (ctx, Except.error e)
  | Except.ok valAddr =>
    if (GetValidator ctx valAddr).isSome then
      (ctx, Except.error StakingError.validatorOwnerExists)
    else
      match msg.pubkey with
      | none => (ctx, Except.error StakingError.invalidType)
      | some pk =>
        if (GetValidatorByConsAddr ctx (GetConsAddress pk)).isSome then
          (ctx, Except.error StakingError.validatorPubKeyExists)
        else if msg.value.denom ≠ BondDenom k then
          (ctx, Except.error (StakingError.badDenom msg.value.denom (BondDenom k)))
        else
          match EnsureLength msg.description with
          | Except.error e => (ctx, Except.error e)
          | Except.ok _ =>
            if pubKeyTypeForbidden ctx pk then
              (ctx, Except.error StakingError.pubKeyTypeNotSupported)
            else
              let validator0 := NewValidator valAddr pk msg.description
              let commission := NewCommissionWithTime msg.commission.rate
                msg.commission.maxRate msg.commission.maxChangeRate ctx.blockTime
              match SetInitialCommission validator0 commission with
              | Except.error e => (ctx, Except.error e)
              | Except.ok validator1 =>
                let validator2 := { validator1 with minSelfDelegation := msg.minSelfDelegation }
                let ctx1 := SetValidator ctx validator2
                let ctx2 := SetValidatorByConsAddr ctx1 validator2
                let ctx3 := SetNewValidatorByPowerIndex ctx2 validator2
                let ctx4 := AfterValidatorCreated ctx3 validator2.operatorAddress
                match AccAddressFromBech32 msg.delegatorAddress with
                | Except.error e => (ctx4, Except.error e)
                | Except.ok delegatorAddress =>
                  match DelegateCoinsFromAccountToModule ctx4 delegatorAddress
                      (BondDenom k) msg.value.amount with
                  | Except.error e => (ctx4, Except.error e)
                  | Except.ok ctx5 =>
                    let epochNumber := GetEpochNumber k
                    let ctx6 := SaveEpochAction ctx5 epochNumber (EpochAction.createValidator msg)
                    let ctx7 := EmitEvents ctx6 (createValidatorEvents msg)
                    (ctx7, Except.ok {})

/-- `msgServer.EditValidator`: enqueue at the current epoch number,
acknowledge. -/
def EditValidator (k : Keeper) (ctx : Ctx) (msg : MsgEditValidator) :
    Ctx × Except StakingError MsgEditValidatorResponse :=
  let epochNumber := GetEpochNumber k
  let ctx1 := SaveEpochAction ctx epochNumber (EpochAction.editValidator msg)
  (ctx1, Except.ok {})

/-- `msgServer.Delegate`: decode the delegator address, check the denom,
move the funds into escrow, then enqueue at the current epoch number. -/
def Delegate (k : Keeper) (ctx : Ctx) (msg : MsgDelegate) :
    Ctx × Except StakingError MsgDelegateResponse :=
  match AccAddressFromBech32 msg.delegatorAddress with
  | Except.error e => (ctx, Except.error e)
  | Except.ok delegatorAddress =>
    if msg.amount.denom ≠ BondDenom k then
      (ctx, Except.error (StakingError.badDenom msg.amount.denom (BondDenom k)))
    else
      match DelegateCoinsFromAccountToModule ctx delegatorAddress
          (BondDenom k) msg.amount.amount with
      | Except.error e => (ctx, Except.error e)
      | Except.ok ctx1 =>
        let epochNumber := GetEpochNumber k
        let ctx2 := SaveEpochAction ctx1 epochNumber (EpochAction.delegate msg)
        (ctx2, Except.ok {})

/-- `msgServer.BeginRedelegate`: enqueue at the current epoch number,
then simulate the redelegation against a projected context advanced to
the next epoch's height and time; the projection (and the commit
function) is discarded, only the completion time is returned. -/
def BeginRedelegate (k : Keeper) (ctx : Ctx) (msg : MsgBeginRedelegate) :
    Ctx × Except StakingError MsgBeginRedelegateResponse :=
  let epochNumber := GetEpochNumber k
  let ctx1 := SaveEpochAction ctx epochNumber (EpochAction.beginRedelegate msg)
  let cacheCtx0 := (CacheContext ctx1).1
  let cacheCtx1 := cacheCtx0.WithBlockHeight (GetNextEpochHeight k)
  let cacheCtx2 := cacheCtx1.WithBlockTime (GetNextEpochTime k)
  match k.epochBeginRedelegate cacheCtx2 msg with
  | Except.error e => (ctx1, Except.error e)
  | Except.ok (completionTime, _) =>
    (ctx1, Except.ok { completionTime := completionTime })

/-- `msgServer.Undelegate`: enqueue at the immediate-queue sentinel `0`,
then simulate the undelegation against a projected context advanced to
the next epoch's height and time; the projection is discarded. -/
def Undelegate (k : Keeper) (ctx : Ctx) (msg : MsgUndelegate) :
    Ctx × Except StakingError MsgUndelegateResponse :=
  let ctx1 := SaveEpochAction ctx 0 (EpochAction.undelegate msg)
  let cacheCtx0 := (CacheContext ctx1).1
  let cacheCtx1 := cacheCtx0.WithBlockHeight (GetNextEpochHeight k)
  let cacheCtx2 := cacheCtx1.WithBlockTime (GetNextEpochTime k)
  match k.epochUndelegate cacheCtx2 msg with
  | Except.error e => (ctx1, Except.error e)
  | Except.ok (completionTime, _) =>
    (ctx1, Except.ok { completionTime := completionTime })

/-- Simulation fixture: completion time is the projected block time plus
an unbonding offset, context unchanged. -/
def simRedelegateFix : Ctx → MsgBeginRedelegate → Except StakingError (Int × Ctx) :=
  fun c _ => Except.ok (c.blockTime + 7, c)

def simUndelegateFix : Ctx → MsgUndelegate → Except StakingError (Int × Ctx) :=
  fun c _ => Except.ok (c.blockTime + 3, c)

def kFix : Keeper :=
  { bondDenom := "stake"
    epochNumber := 5
    nextEpochHeight := 1010
    nextEpochTime := 600
    epochBeginRedelegate := simRedelegateFix
    epochUndelegate := simUndelegateFix }

def storeFix : Store :=
  { validatorsByOp := []
    validatorsByCons := []
    powerIndex := []
    hookCalls := []
    balances := [((r"deladdr", r"stake"), 1000)]
    poolBalances := []
    queue := []
    events := [] }

def ctxFix : Ctx :=
  { blockHeight := 10, blockTime := 100, consensusPubKeyTypes := none, store := storeFix }

def descFix : Description :=
  { moniker := "val", identity := "", website := "", securityContact := "", details := "" }

def pkFix : PubKey :=
  { keyType := "ed25519", address := "consaddr1" }

def msgCreateFix : MsgCreateValidator :=
  { description := descFix
    commission := { rate := 1, maxRate := 10, maxChangeRate := 1 }
    minSelfDelegation := 1
    delegatorAddress := "deladdr"
    validatorAddress := "valoper1"
    pubkey := some pkFix
    value := { denom := "stake", amount := 100 } }

def msgRedelegateFix : MsgBeginRedelegate :=
  { delegatorAddress := "deladdr"
    validatorSrcAddress := "valoper1"
    validatorDstAddress := "valoper2"
    amount := { denom := "stake", amount := 50 } }

def msgUndelegateFix : MsgUndelegate :=
  { delegatorAddress := "deladdr"
    validatorAddress := "valoper1"
    amount := { denom := "stake", amount := 50 } }

def valFix : Validator :=
  { operatorAddress := "valoper1"
    consensusPubkey := pkFix
    description := descFix
    commission := { rate := 1, maxRate := 10, maxChangeRate := 1, updateTime := 0 }
    minSelfDelegation := 1 }

def valFix2 : Validator :=
  { valFix with operatorAddress := "valoper2" }

/-- A context in which the operator address of `msgCreateFix` is already
registered. -/
def ctxOwnerExists : Ctx :=
  { ctxFix with store := { storeFix with validatorsByOp := [(r"valoper1", valFix)] } }

/-- A context in which the consensus public key of `msgCreateFix` is
already registered, under the different operator address valoper2. -/
def ctxPubkeyExists : Ctx :=
  { ctxFix with store := { storeFix with
      validatorsByOp := [(r"valoper2", valFix2)]
      validatorsByCons := [(r"consaddr1", r"valoper2")] } }

/-- A Delegate request whose delegator address fails to decode and whose
denom is also mismatched. -/
def msgDelegateBad : MsgDelegate :=
  { delegatorAddress := ""
    validatorAddress := "valoper1"
    amount := { denom := "atom", amount := 5 } }

/-- A Delegate request with a decodable delegator address but a
mismatched denom. -/
def msgDelegateWrongDenom : MsgDelegate :=
  { delegatorAddress := "deladdr"
    validatorAddress := "valoper1"
    amount := { denom := "atom", amount := 5 } }

/-- A CreateValidator request identical to `msgCreateFix` except that its
delegator address fails to decode. -/
def msgCreateBadDel : MsgCreateValidator :=
  { msgCreateFix with delegatorAddress := "" }

/-- A CreateValidator request identical to `msgCreateFix` except that its
delegator address decodes to an account with no balance, so the escrow
transfer fails. -/
def msgCreatePoor : MsgCreateValidator :=
  { msgCreateFix with delegatorAddress := "pauper" }

/-- The validator record produced by a successful `SetInitialCommission`
on the fixture request (creation time = the fixture block time 100). -/
def v1Fix : Validator :=
  { operatorAddress := "valoper1"
    consensusPubkey := pkFix
    description := descFix
    commission := { rate := 1, maxRate := 10, maxChangeRate := 1, updateTime := 100 }
    minSelfDelegation := 1 }

/-- Claim C2: BeginRedelegate appends exactly one begin-redelegate action
to the queue under the current epoch number, both when the forward
simulation succeeds and when it fails; the enqueued action is not
retracted on simulation failure. (The statement quantifies over every
keeper, hence over every possible simulation outcome.) -/
theorem beginRedelegate_always_enqueues_one (k : Keeper) (ctx : Ctx)
    (msg : MsgBeginRedelegate) :
    (BeginRedelegate k ctx msg).1.store.queue
      = ctx.store.queue ++ [(GetEpochNumber k, EpochAction.beginRedelegate msg)] := by
  unfold BeginRedelegate
  dsimp only
  split <;> rfl

/-- Claim C3: Undelegate always enqueues under epoch number `0` (the
immediate-queue sentinel): the queue grows by exactly the entry
`(0, undelegate msg)`, and the entries with a nonzero epoch number are
unchanged — for every current epoch number, so nothing is ever added
under a nonzero current epoch number such as 5. -/
theorem undelegate_enqueues_sentinel_zero (k : Keeper) (ctx : Ctx)
    (msg : MsgUndelegate) :
    (Undelegate k ctx msg).1.store.queue
      = ctx.store.queue ++ [((0 : Int), EpochAction.undelegate msg)]
    ∧ ((Undelegate k ctx msg).1.store.queue.filter (fun e => !(e.1 == 0)))
      = ctx.store.queue.filter (fun e => !(e.1 == 0)) := by
  have h1 : (Undelegate k ctx msg).1.store.queue
      = ctx.store.queue ++ [((0 : Int), EpochAction.undelegate msg)] := by
    unfold Undelegate
    dsimp only
    split <;> rfl
  refine ⟨h1, ?_⟩
  rw [h1, List.filter_append]
  simp

/-- Claim C10: for BeginRedelegate and Undelegate the projected context's
commit function is never invoked: whatever the simulation algorithms do,
the resulting canonical context is exactly the original context with the
action enqueued (no simulation mutation leaks), and the enqueued action
is durably present in the canonical queue. -/
theorem projection_never_committed (k : Keeper) (ctx : Ctx)
    (msgB : MsgBeginRedelegate) (msgU : MsgUndelegate) :
    (BeginRedelegate k ctx msgB).1
        = SaveEpochAction ctx (GetEpochNumber k) (EpochAction.beginRedelegate msgB)
    ∧ (Undelegate k ctx msgU).1
        = SaveEpochAction ctx 0 (EpochAction.undelegate msgU)
    ∧ (GetEpochNumber k, EpochAction.beginRedelegate msgB)
        ∈ (BeginRedelegate k ctx msgB).1.store.queue
    ∧ ((0 : Int), EpochAction.undelegate msgU)
        ∈ (Undelegate k ctx msgU).1.store.queue := by
  have hB : (BeginRedelegate k ctx msgB).1
      = SaveEpochAction ctx (GetEpochNumber k) (EpochAction.beginRedelegate msgB) := by
    unfold BeginRedelegate
    dsimp only
    split <;> rfl
  have hU : (Undelegate k ctx msgU).1
      = SaveEpochAction ctx 0 (EpochAction.undelegate msgU) := by
    unfold Undelegate
    dsimp only
    split <;> rfl
  refine ⟨hB, hU, ?_, ?_⟩
  · rw [hB]
    simp [SaveEpochAction]
  · rw [hU]
    simp [SaveEpochAction]

/-- Claim C4: when BeginRedelegate returns successfully, the completion
time it returns is exactly what the redelegation-application algorithm
produces when run directly, on the same message, against a context whose
block height and block time equal the next epoch's height and time as
reported by the epoch clock. -/
theorem beginRedelegate_completion_refines (k : Keeper) (ctx : Ctx)
    (msg : MsgBeginRedelegate) (t : Int)
    (h : (BeginRedelegate k ctx msg).2 = Except.ok { completionTime := t }) :
    ∃ c : Ctx, k.epochBeginRedelegate
      (Ctx.WithBlockTime
        (Ctx.WithBlockHeight
          (SaveEpochAction ctx (GetEpochNumber k) (EpochAction.beginRedelegate msg))
          (GetNextEpochHeight k))
        (GetNextEpochTime k)) msg = Except.ok (t, c) := by
  unfold BeginRedelegate at h
  dsimp only at h
  split at h
  · exact absurd h (by simp)
  · rename_i completionTime c heq
    simp only [Prod.snd, Except.ok.injEq, MsgBeginRedelegateResponse.mk.injEq] at h
    subst h
    exact ⟨c, heq⟩

/-- Witness for C4 at a concrete input: the simulation fixture completes
at the projected block time (600) plus 7. -/
theorem beginRedelegate_completion_refines_witness :
    (BeginRedelegate kFix ctxFix msgRedelegateFix).2
        = Except.ok { completionTime := (607 : Int) }
    ∧ ∃ c : Ctx, kFix.epochBeginRedelegate
        (Ctx.WithBlockTime
          (Ctx.WithBlockHeight
            (SaveEpochAction ctxFix (GetEpochNumber kFix)
              (EpochAction.beginRedelegate msgRedelegateFix))
            (GetNextEpochHeight kFix))
          (GetNextEpochTime kFix)) msgRedelegateFix = Except.ok ((607 : Int), c) :=
  ⟨by decide, beginRedelegate_completion_refines kFix ctxFix msgRedelegateFix 607 (by decide)⟩

/-- Claim C1: a CreateValidator request that passes every validation
(fresh operator address, fresh consensus key, matching denom, description
within limits, permitted key type, valid commission), whose delegator
address decodes and whose escrow transfer succeeds, returns the empty
acknowledgment; the validator is lookupable by operator address and by
derived consensus address immediately after the call, and exactly one
create-validator action is appended to the queue under the current epoch
number. -/
theorem createValidator_valid_succeeds (k : Keeper) (ctx : Ctx) (msg : MsgCreateValidator)
    (valAddr : ValAddr) (pk : PubKey) (v1 : Validator) (dAddr : AccAddr)
    (hva : ValAddressFromBech32 msg.validatorAddress = Except.ok valAddr)
    (hnew : GetValidator ctx valAddr = none)
    (hpk : msg.pubkey = some pk)
    (hcons : GetValidatorByConsAddr ctx (GetConsAddress pk) = none)
    (hdenom : msg.value.denom = BondDenom k)
    (hdesc : EnsureLength msg.description = Except.ok msg.description)
    (hkt : pubKeyTypeForbidden ctx pk = false)
    (hcomm : SetInitialCommission (NewValidator valAddr pk msg.description)
        (NewCommissionWithTime msg.commission.rate msg.commission.maxRate
          msg.commission.maxChangeRate ctx.blockTime) = Except.ok v1)
    (hacc : AccAddressFromBech32 msg.delegatorAddress = Except.ok dAddr)
    (hfunds : msg.value.amount ≤ getBalance ctx.store dAddr (BondDenom k)) :
    (CreateValidator k ctx msg).2 = Except.ok {}
    ∧ (GetValidator (CreateValidator k ctx msg).1 valAddr).isSome = true
    ∧ (GetValidatorByConsAddr (CreateValidator k ctx msg).1 (GetConsAddress pk)).isSome = true
    ∧ (CreateValidator k ctx msg).1.store.queue
        = ctx.store.queue ++ [(GetEpochNumber k, EpochAction.createValidator msg)] := by
  have hv1 : v1.operatorAddress = valAddr ∧ v1.consensusPubkey = pk := by
    unfold SetInitialCommission at hcomm
    split at hcomm
    · cases hcomm
      exact ⟨rfl, rfl⟩
    · cases hcomm
  obtain ⟨hop, hcp⟩ := hv1
  simp only [getBalance] at hfunds
  unfold CreateValidator
  rw [hva, hpk]
  simp only [hnew, hcons, hdenom, hdesc, hkt, hcomm, hacc, Option.isSome_none,
    Bool.false_eq_true, if_false, ne_eq, not_true_eq_false, ite_false]
  simp [GetValidator, GetValidatorByConsAddr, assocLookup, GetConsAddress,
    SetValidator, SetValidatorByConsAddr, SetNewValidatorByPowerIndex,
    AfterValidatorCreated, DelegateCoinsFromAccountToModule, getBalance,
    SaveEpochAction, EmitEvents, hfunds, hop, hcp]

/-- Witness for C1 at a concrete input: the scenario of the spec with
bonding denom stake, a 100-stake initial bond and a fresh registry. -/
theorem createValidator_valid_succeeds_witness :
    (ValAddressFromBech32 msgCreateFix.validatorAddress = Except.ok (r"valoper1")
      ∧ GetValidator ctxFix (r"valoper1") = none
      ∧ msgCreateFix.pubkey = some pkFix
      ∧ GetValidatorByConsAddr ctxFix (GetConsAddress pkFix) = none
      ∧ msgCreateFix.value.denom = BondDenom kFix
      ∧ EnsureLength msgCreateFix.description = Except.ok msgCreateFix.description
      ∧ pubKeyTypeForbidden ctxFix pkFix = false
      ∧ SetInitialCommission (NewValidator (r"valoper1") pkFix msgCreateFix.description)
          (NewCommissionWithTime msgCreateFix.commission.rate msgCreateFix.commission.maxRate
            msgCreateFix.commission.maxChangeRate ctxFix.blockTime) = Except.ok v1Fix
      ∧ AccAddressFromBech32 msgCreateFix.delegatorAddress = Except.ok (r"deladdr")
      ∧ msgCreateFix.value.amount ≤ getBalance ctxFix.store (r"deladdr") (BondDenom kFix))
    ∧ ((CreateValidator kFix ctxFix msgCreateFix).2 = Except.ok {}
      ∧ (GetValidator (CreateValidator kFix ctxFix msgCreateFix).1 (r"valoper1")).isSome = true
      ∧ (GetValidatorByConsAddr (CreateValidator kFix ctxFix msgCreateFix).1
          (GetConsAddress pkFix)).isSome = true
      ∧ (CreateValidator kFix ctxFix msgCreateFix).1.store.queue
          = ctxFix.store.queue
            ++ [(GetEpochNumber kFix, EpochAction.createValidator msgCreateFix)]) :=
  ⟨⟨by decide, by decide, by decide, by decide, by decide, by decide, by decide, by decide,
    by decide, by decide⟩,
   createValidator_valid_succeeds kFix ctxFix msgCreateFix (r"valoper1") pkFix v1Fix (r"deladdr")
     (by decide) (by decide) (by decide) (by decide) (by decide) (by decide) (by decide)
     (by decide) (by decide) (by decide)⟩

/-- Claim C5 counterexample: a CreateValidator request that passes every
validation but whose delegator address fails to decode is rejected, yet
side effects have been performed: the validator record is persisted
under the operator-address index and the creation hook has been
invoked. -/
theorem createValidator_badDelegator_counterexample :
    (CreateValidator kFix ctxFix msgCreateBadDel).2
        = Except.error StakingError.invalidAccAddress
    ∧ (GetValidator (CreateValidator kFix ctxFix msgCreateBadDel).1 (r"valoper1")).isSome = true
    ∧ (GetValidatorByConsAddr (CreateValidator kFix ctxFix msgCreateBadDel).1
        (GetConsAddress pkFix)).isSome = true
    ∧ (CreateValidator kFix ctxFix msgCreateBadDel).1.store.hookCalls
        ≠ ctxFix.store.hookCalls := by
  decide

/-- Claim C5 (amended): when the delegator address of an otherwise fully
valid CreateValidator request fails to decode, the error is reported,
no funds are transferred and no action is enqueued; however the
validator record has already been persisted under both indices and the
creation hook has already been invoked, because persistence happens
before the delegator address is decoded. -/
theorem createValidator_badDelegator_partial (k : Keeper) (ctx : Ctx)
    (msg : MsgCreateValidator) (valAddr : ValAddr) (pk : PubKey) (v1 : Validator)
    (e : StakingError)
    (hva : ValAddressFromBech32 msg.validatorAddress = Except.ok valAddr)
    (hnew : GetValidator ctx valAddr = none)
    (hpk : msg.pubkey = some pk)
    (hcons : GetValidatorByConsAddr ctx (GetConsAddress pk) = none)
    (hdenom : msg.value.denom = BondDenom k)
    (hdesc : EnsureLength msg.description = Except.ok msg.description)
    (hkt : pubKeyTypeForbidden ctx pk = false)
    (hcomm : SetInitialCommission (NewValidator valAddr pk msg.description)
        (NewCommissionWithTime msg.commission.rate msg.commission.maxRate
          msg.commission.maxChangeRate ctx.blockTime) = Except.ok v1)
    (hacc : AccAddressFromBech32 msg.delegatorAddress = Except.error e) :
    (CreateValidator k ctx msg).2 = Except.error e
    ∧ (CreateValidator k ctx msg).1.store.queue = ctx.store.queue
    ∧ (CreateValidator k ctx msg).1.store.balances = ctx.store.balances
    ∧ (CreateValidator k ctx msg).1.store.poolBalances = ctx.store.poolBalances
    ∧ (GetValidator (CreateValidator k ctx msg).1 valAddr).isSome = true
    ∧ (GetValidatorByConsAddr (CreateValidator k ctx msg).1 (GetConsAddress pk)).isSome = true
    ∧ (CreateValidator k ctx msg).1.store.hookCalls = valAddr :: ctx.store.hookCalls := by
  have hv1 : v1.operatorAddress = valAddr ∧ v1.consensusPubkey = pk := by
    unfold SetInitialCommission at hcomm
    split at hcomm
    · cases hcomm
      exact ⟨rfl, rfl⟩
    · cases hcomm
  obtain ⟨hop, hcp⟩ := hv1
  unfold CreateValidator
  rw [hva, hpk]
  simp only [hnew, hcons, hdenom, hdesc, hkt, hcomm, hacc, Option.isSome_none,
    Bool.false_eq_true, if_false, ne_eq, not_true_eq_false, ite_false]
  simp [GetValidator, GetValidatorByConsAddr, assocLookup, GetConsAddress,
    SetValidator, SetValidatorByConsAddr, SetNewValidatorByPowerIndex,
    AfterValidatorCreated, hop, hcp]

/-- Witness for C5 (amended) at a concrete input: the fixture request
with an undecodable delegator address. -/
theorem createValidator_badDelegator_partial_witness :
    (ValAddressFromBech32 msgCreateBadDel.validatorAddress = Except.ok (r"valoper1")
      ∧ GetValidator ctxFix (r"valoper1") = none
      ∧ msgCreateBadDel.pubkey = some pkFix
      ∧ GetValidatorByConsAddr ctxFix (GetConsAddress pkFix) = none
      ∧ msgCreateBadDel.value.denom = BondDenom kFix
      ∧ EnsureLength msgCreateBadDel.description = Except.ok msgCreateBadDel.description
      ∧ pubKeyTypeForbidden ctxFix pkFix = false
      ∧ SetInitialCommission (NewValidator (r"valoper1") pkFix msgCreateBadDel.description)
          (NewCommissionWithTime msgCreateBadDel.commission.rate msgCreateBadDel.commission.maxRate
            msgCreateBadDel.commission.maxChangeRate ctxFix.blockTime) = Except.ok v1Fix
      ∧ AccAddressFromBech32 msgCreateBadDel.delegatorAddress
          = Except.error StakingError.invalidAccAddress)
    ∧ ((CreateValidator kFix ctxFix msgCreateBadDel).2
          = Except.error StakingError.invalidAccAddress
      ∧ (CreateValidator kFix ctxFix msgCreateBadDel).1.store.queue = ctxFix.store.queue
      ∧ (CreateValidator kFix ctxFix msgCreateBadDel).1.store.balances = ctxFix.store.balances
      ∧ (CreateValidator kFix ctxFix msgCreateBadDel).1.store.poolBalances
          = ctxFix.store.poolBalances
      ∧ (GetValidator (CreateValidator kFix ctxFix msgCreateBadDel).1 (r"valoper1")).isSome = true
      ∧ (GetValidatorByConsAddr (CreateValidator kFix ctxFix msgCreateBadDel).1
          (GetConsAddress pkFix)).isSome = true
      ∧ (CreateValidator kFix ctxFix msgCreateBadDel).1.store.hookCalls
          = (r"valoper1") :: ctxFix.store.hookCalls) :=
  ⟨⟨by decide, by decide, by decide, by decide, by decide, by decide, by decide, by decide,
    by decide⟩,
   createValidator_badDelegator_partial kFix ctxFix msgCreateBadDel (r"valoper1") pkFix v1Fix
     StakingError.invalidAccAddress
     (by decide) (by decide) (by decide) (by decide) (by decide) (by decide) (by decide)
     (by decide) (by decide)⟩

/-- Claim C6: when the escrow transfer of an otherwise fully valid
CreateValidator request fails, the transfer error is returned, the
already-persisted validator record remains lookupable by operator
address and consensus address (it is not rolled back), no funds move,
and no create-validator action is enqueued. -/
theorem createValidator_transferFail_notRolledBack (k : Keeper) (ctx : Ctx)
    (msg : MsgCreateValidator) (valAddr : ValAddr) (pk : PubKey) (v1 : Validator)
    (dAddr : AccAddr)
    (hva : ValAddressFromBech32 msg.validatorAddress = Except.ok valAddr)
    (hnew : GetValidator ctx valAddr = none)
    (hpk : msg.pubkey = some pk)
    (hcons : GetValidatorByConsAddr ctx (GetConsAddress pk) = none)
    (hdenom : msg.value.denom = BondDenom k)
    (hdesc : EnsureLength msg.description = Except.ok msg.description)
    (hkt : pubKeyTypeForbidden ctx pk = false)
    (hcomm : SetInitialCommission (NewValidator valAddr pk msg.description)
        (NewCommissionWithTime msg.commission.rate msg.commission.maxRate
          msg.commission.maxChangeRate ctx.blockTime) = Except.ok v1)
    (hacc : AccAddressFromBech32 msg.delegatorAddress = Except.ok dAddr)
    (hnofunds : getBalance ctx.store dAddr (BondDenom k) < msg.value.amount) :
    (CreateValidator k ctx msg).2 = Except.error StakingError.insufficientFunds
    ∧ (GetValidator (CreateValidator k ctx msg).1 valAddr).isSome = true
    ∧ (GetValidatorByConsAddr (CreateValidator k ctx msg).1 (GetConsAddress pk)).isSome = true
    ∧ (CreateValidator k ctx msg).1.store.queue = ctx.store.queue
    ∧ (CreateValidator k ctx msg).1.store.balances = ctx.store.balances
    ∧ (CreateValidator k ctx msg).1.store.poolBalances = ctx.store.poolBalances := by
  have hv1 : v1.operatorAddress = valAddr ∧ v1.consensusPubkey = pk := by
    unfold SetInitialCommission at hcomm
    split at hcomm
    · cases hcomm
      exact ⟨rfl, rfl⟩
    · cases hcomm
  obtain ⟨hop, hcp⟩ := hv1
  simp only [getBalance] at hnofunds
  have hnle := Nat.not_le.mpr hnofunds
  unfold CreateValidator
  rw [hva, hpk]
  simp only [hnew, hcons, hdenom, hdesc, hkt, hcomm, hacc, Option.isSome_none,
    Bool.false_eq_true, if_false, ne_eq, not_true_eq_false, ite_false]
  simp [GetValidator, GetValidatorByConsAddr, assocLookup, GetConsAddress,
    SetValidator, SetValidatorByConsAddr, SetNewValidatorByPowerIndex,
    AfterValidatorCreated, DelegateCoinsFromAccountToModule, getBalance,
    hnle, hop, hcp]

/-- Witness for C6 at a concrete input: the fixture request with a
delegator account that has no balance, so the escrow transfer fails. -/
theorem createValidator_transferFail_witness :
    (ValAddressFromBech32 msgCreatePoor.validatorAddress = Except.ok (r"valoper1")
      ∧ GetValidator ctxFix (r"valoper1") = none
      ∧ msgCreatePoor.pubkey = some pkFix
      ∧ GetValidatorByConsAddr ctxFix (GetConsAddress pkFix) = none
      ∧ msgCreatePoor.value.denom = BondDenom kFix
      ∧ EnsureLength msgCreatePoor.description = Except.ok msgCreatePoor.description
      ∧ pubKeyTypeForbidden ctxFix pkFix = false
      ∧ SetInitialCommission (NewValidator (r"valoper1") pkFix msgCreatePoor.description)
          (NewCommissionWithTime msgCreatePoor.commission.rate msgCreatePoor.commission.maxRate
            msgCreatePoor.commission.maxChangeRate ctxFix.blockTime) = Except.ok v1Fix
      ∧ AccAddressFromBech32 msgCreatePoor.delegatorAddress = Except.ok (r"pauper")
      ∧ getBalance ctxFix.store (r"pauper") (BondDenom kFix) < msgCreatePoor.value.amount)
    ∧ ((CreateValidator kFix ctxFix msgCreatePoor).2
          = Except.error StakingError.insufficientFunds
      ∧ (GetValidator (CreateValidator kFix ctxFix msgCreatePoor).1 (r"valoper1")).isSome = true
      ∧ (GetValidatorByConsAddr (CreateValidator kFix ctxFix msgCreatePoor).1
          (GetConsAddress pkFix)).isSome = true
      ∧ (CreateValidator kFix ctxFix msgCreatePoor).1.store.queue = ctxFix.store.queue
      ∧ (CreateValidator kFix ctxFix msgCreatePoor).1.store.balances = ctxFix.store.balances
      ∧ (CreateValidator kFix ctxFix msgCreatePoor).1.store.poolBalances
          = ctxFix.store.poolBalances) :=
  ⟨⟨by decide, by decide, by decide, by decide, by decide, by decide, by decide, by decide,
    by decide, by decide⟩,
   createValidator_transferFail_notRolledBack kFix ctxFix msgCreatePoor (r"valoper1") pkFix v1Fix
     (r"pauper")
     (by decide) (by decide) (by decide) (by decide) (by decide) (by decide) (by decide)
     (by decide) (by decide) (by decide)⟩

/-- Claim C7: a CreateValidator request whose operator address already has
a registered validator fails with the owner-exists error kind and leaves
the context completely unchanged: no queue append, no fund transfer, no
validator state written. -/
theorem createValidator_ownerExists_rejected (k : Keeper) (ctx : Ctx)
    (msg : MsgCreateValidator) (valAddr : ValAddr) (v : Validator)
    (hva : ValAddressFromBech32 msg.validatorAddress = Except.ok valAddr)
    (hfound : GetValidator ctx valAddr = some v) :
    (CreateValidator k ctx msg).1 = ctx
    ∧ (CreateValidator k ctx msg).2 = Except.error StakingError.validatorOwnerExists := by
  unfold CreateValidator
  rw [hva]
  simp [hfound]

/-- Witness for C7 at a concrete input: valoper1 is already registered. -/
theorem createValidator_ownerExists_rejected_witness :
    (ValAddressFromBech32 msgCreateFix.validatorAddress = Except.ok (r"valoper1")
      ∧ GetValidator ctxOwnerExists (r"valoper1") = some valFix)
    ∧ (CreateValidator kFix ctxOwnerExists msgCreateFix).1 = ctxOwnerExists
    ∧ (CreateValidator kFix ctxOwnerExists msgCreateFix).2
        = Except.error StakingError.validatorOwnerExists :=
  ⟨⟨by decide, by decide⟩,
   createValidator_ownerExists_rejected kFix ctxOwnerExists msgCreateFix
     (r"valoper1") valFix (by decide) (by decide)⟩

/-- Claim C8: a CreateValidator request whose consensus public key is
already registered to any validator (looked up by derived consensus
address, possibly under a different operator address) fails with the
pubkey-exists error kind and leaves the context completely unchanged. -/
theorem createValidator_pubkeyExists_rejected (k : Keeper) (ctx : Ctx)
    (msg : MsgCreateValidator) (valAddr : ValAddr) (pk : PubKey) (v : Validator)
    (hva : ValAddressFromBech32 msg.validatorAddress = Except.ok valAddr)
    (hnew : GetValidator ctx valAddr = none)
    (hpk : msg.pubkey = some pk)
    (hcons : GetValidatorByConsAddr ctx (GetConsAddress pk) = some v) :
    (CreateValidator k ctx msg).1 = ctx
    ∧ (CreateValidator k ctx msg).2 = Except.error StakingError.validatorPubKeyExists := by
  unfold CreateValidator
  rw [hva, hpk]
  simp [hnew, hcons]

/-- Witness for C8 at a concrete input: the consensus address of
`pkFix` is registered under the different operator address valoper2. -/
theorem createValidator_pubkeyExists_rejected_witness :
    (ValAddressFromBech32 msgCreateFix.validatorAddress = Except.ok (r"valoper1")
      ∧ GetValidator ctxPubkeyExists (r"valoper1") = none
      ∧ msgCreateFix.pubkey = some pkFix
      ∧ GetValidatorByConsAddr ctxPubkeyExists (GetConsAddress pkFix) = some valFix2)
    ∧ (CreateValidator kFix ctxPubkeyExists msgCreateFix).1 = ctxPubkeyExists
    ∧ (CreateValidator kFix ctxPubkeyExists msgCreateFix).2
        = Except.error StakingError.validatorPubKeyExists :=
  ⟨⟨by decide, by decide, by decide, by decide⟩,
   createValidator_pubkeyExists_rejected kFix ctxPubkeyExists msgCreateFix
     (r"valoper1") pkFix valFix2 (by decide) (by decide) (by decide) (by decide)⟩

/-- Claim C9 counterexample: a Delegate request whose amount denom
differs from the bonding denomination but whose delegator address fails
to decode is rejected with the address error, not the bad-denom error,
because the address is decoded first. -/
theorem delegate_badDenom_counterexample :
    msgDelegateBad.amount.denom ≠ BondDenom kFix
    ∧ (Delegate kFix ctxFix msgDelegateBad).2 = Except.error StakingError.invalidAccAddress
    ∧ (Delegate kFix ctxFix msgDelegateBad).2
        ≠ Except.error (StakingError.badDenom msgDelegateBad.amount.denom (BondDenom kFix)) := by
  decide

/-- Claim C9 (amended): for every Delegate request whose delegator
address decodes and whose amount denom differs from the bonding
denomination, the handler fails with the bad-denom error and the context
is unchanged — no funds move to the escrow pool and the queue length is
unchanged. -/
theorem delegate_badDenom_rejected (k : Keeper) (ctx : Ctx) (msg : MsgDelegate)
    (dAddr : AccAddr)
    (hacc : AccAddressFromBech32 msg.delegatorAddress = Except.ok dAddr)
    (hdenom : msg.amount.denom ≠ BondDenom k) :
    (Delegate k ctx msg).1 = ctx
    ∧ (Delegate k ctx msg).2
        = Except.error (StakingError.badDenom msg.amount.denom (BondDenom k)) := by
  unfold Delegate
  rw [hacc]
  simp [hdenom]

/-- Witness for C9 (amended) at a concrete input: delegating 5 atom when
the bonding denomination is stake. -/
theorem delegate_badDenom_rejected_witness :
    (AccAddressFromBech32 msgDelegateWrongDenom.delegatorAddress = Except.ok (r"deladdr")
      ∧ msgDelegateWrongDenom.amount.denom ≠ BondDenom kFix)
    ∧ (Delegate kFix ctxFix msgDelegateWrongDenom).1 = ctxFix
    ∧ (Delegate kFix ctxFix msgDelegateWrongDenom).2
        = Except.error (StakingError.badDenom msgDelegateWrongDenom.amount.denom (BondDenom kFix)) :=
  ⟨⟨by decide, by decide⟩,
   delegate_badDenom_rejected kFix ctxFix msgDelegateWrongDenom (r"deladdr")
     (by decide) (by decide)⟩

end Staking
